import Mathlib

/-!
Shallow embedding of the `nonblocking-channel` crate (`src/lib.rs`).

The channel is a bounded SPSC queue: a fixed-capacity ring buffer
(`ringbuf::HeapRb`) shared by a producer half and a consumer half, plus a
shared atomic close flag.  We model the whole shared state of one channel
as a single `Channel` structure: the ring is a FIFO list (front = oldest
element, as popped by the consumer), the capacity is the `Nat` fixed at
construction, and the close flag is a `Bool`.  The `ringbuf` dependency's
push/pop contract (push fails returning the item iff the buffer holds
`cap` elements; pop returns the oldest element or `None`) is embedded
directly into `try_send` / `try_recv`.
-/

namespace NonblockingChannel

/-- The result of trying to send a message (`SendResult` in `src/lib.rs`). -/
inductive SendResult (T : Type) where
  | Ok : SendResult T
  | Full : T → SendResult T
  | Disconnected : SendResult T
deriving DecidableEq, Repr

/-- The result of trying to receive a message (`RecvResult` in `src/lib.rs`). -/
inductive RecvResult (T : Type) where
  | Ok : T → RecvResult T
  | Empty : RecvResult T
  | Disconnected : RecvResult T
deriving DecidableEq, Repr

/-- `SendResult::is_disconnected`: `matches!(self, Self::Disconnected)`. -/
def SendResult.is_disconnected {T : Type} : SendResult T → Bool
  | SendResult.Disconnected => true
  | _ => false

/-- `SendResult::is_ok`: `matches!(self, Self::Ok)`. -/
def SendResult.is_ok {T : Type} : SendResult T → Bool
  | SendResult.Ok => true
  | _ => false

/-- `SendResult::unwrap`: returns `()` on `Ok` and panics otherwise.  A panic
is modelled as `none`, a normal return as `some ()`.  The source panics on
both `Full` (with the rejected message in the panic text) and
`Disconnected`. -/
def SendResult.unwrap {T : Type} : SendResult T → Option Unit
  | SendResult.Ok => some ()
  | SendResult.Full _ => none
  | SendResult.Disconnected => none

/-- Projection of the message a `SendResult` hands back to the caller: only
the `Full` constructor carries a payload in the source type definition. -/
def SendResult.returned_message {T : Type} : SendResult T → Option T
  | SendResult.Full m => some m
  | _ => none

/-- `RecvResult::is_disconnected`: `matches!(self, Self::Disconnected)`. -/
def RecvResult.is_disconnected {T : Type} : RecvResult T → Bool
  | RecvResult.Disconnected => true
  | _ => false

/-- `RecvResult::is_ok`: `matches!(self, Self::Ok(_) | Self::Empty)`. -/
def RecvResult.is_ok {T : Type} : RecvResult T → Bool
  | RecvResult.Ok _ => true
  | RecvResult.Empty => true
  | RecvResult.Disconnected => false

/-- `RecvResult::unwrap`: yields `Some(message)` on `Ok`, `None` on `Empty`,
and panics on `Disconnected`.  A panic is modelled as `none`, a normal
return of the Rust `Option<T>` as `some _`. -/
def RecvResult.unwrap {T : Type} : RecvResult T → Option (Option T)
  | RecvResult.Ok m => some (some m)
  | RecvResult.Empty => some none
  | RecvResult.Disconnected => none

/-- The shared state of one channel: the ring buffer contents (FIFO list,
front popped first), its fixed capacity, and the shared close flag
(`is_closed: Arc<AtomicBool>` in the source). -/
structure Channel (T : Type) where
  cap : Nat
  ring : List T
  is_closed : Bool
deriving DecidableEq, Repr

/-- `nonblocking_channel(capacity)`: builds a `HeapRb` of the given capacity
and a close flag initialised to `false`.  The `NonZeroUsize` argument is
modelled as a `Nat`; claims about the channel carry `1 ≤ capacity` as a
hypothesis. -/
def nonblocking_channel (T : Type) (capacity : Nat) : Channel T :=
  { cap := capacity, ring := [], is_closed := false }

/-- `NonBlockingSender::try_send`: if the close flag reads `true` return
`Disconnected`; otherwise push into the ring, returning `Full(message)`
when the push fails because the ring already holds `cap` elements, and
`Ok` when it succeeds.  Returns the result together with the channel state
after the call. -/
def NonBlockingSender.try_send {T : Type} (c : Channel T) (m : T) :
    SendResult T × Channel T :=
  if c.is_closed then (SendResult.Disconnected, c)
  else if c.cap ≤ c.ring.length then (SendResult.Full m, c)
  else (SendResult.Ok, { c with ring := c.ring ++ [m] })

/-- `impl Drop for NonBlockingSender`: stores `true` into the close flag. -/
def NonBlockingSender.drop {T : Type} (c : Channel T) : Channel T :=
  { c with is_closed := true }

/-- `NonBlockingReceiver::try_recv`: if the close flag reads `true` return
`Disconnected`; otherwise pop from the ring, returning `Ok(message)` with
the oldest element when one exists and `Empty` when the ring is empty. -/
def NonBlockingReceiver.try_recv {T : Type} (c : Channel T) :
    RecvResult T × Channel T :=
  if c.is_closed then (RecvResult.Disconnected, c)
  else
    match c.ring with
    | [] => (RecvResult.Empty, c)
    | m :: rest => (RecvResult.Ok m, { c with ring := rest })

/-- `impl Drop for NonBlockingReceiver`: stores `true` into the close flag. -/
def NonBlockingReceiver.drop {T : Type} (c : Channel T) : Channel T :=
  { c with is_closed := true }

/-- The shared state behind a `MicroBlockingSender`: the wrapped
`NonBlockingSender` (i.e. the channel state it owns) together with the
strong reference count of the `Arc<Mutex<NonBlockingSender>>` that the
cloned handles share. -/
structure MicroBlockingSender (T : Type) where
  count : Nat
  chan : Channel T
deriving DecidableEq, Repr

/-- `NonBlockingSender::mpsc`: moves the sender into a fresh
`Arc<Mutex<_>>` with one handle; the sender is not dropped by the move, so
the close flag is untouched. -/
def NonBlockingSender.mpsc {T : Type} (c : Channel T) : MicroBlockingSender T :=
  { count := 1, chan := c }

/-- `MicroBlockingSender::try_send`: locks the shared mutex, delegates to
the wrapped sender's `try_send`, and returns its result unchanged.  The
lock acquisition and release are invisible in this sequential model; the
body is the delegation the source performs under the lock. -/
def MicroBlockingSender.try_send {T : Type} (s : MicroBlockingSender T) (m : T) :
    SendResult T × MicroBlockingSender T :=
  let r := NonBlockingSender.try_send s.chan m
  (r.1, { s with chan := r.2 })

/-- `impl Clone for MicroBlockingSender`: clones the `Arc`, incrementing
its strong count; the wrapped sender is untouched. -/
def MicroBlockingSender.clone {T : Type} (s : MicroBlockingSender T) :
    MicroBlockingSender T :=
  { s with count := s.count + 1 }

/-- Dropping one `MicroBlockingSender` handle: the `Arc` strong count is
decremented; when the dropped handle was the last one the wrapped
`NonBlockingSender` is destroyed, running its `Drop` impl which stores
`true` into the close flag. -/
def MicroBlockingSender.drop_clone {T : Type} (s : MicroBlockingSender T) :
    MicroBlockingSender T :=
  if s.count ≤ 1 then { count := 0, chan := NonBlockingSender.drop s.chan }
  else { s with count := s.count - 1 }

/-- Dropping `k` adapter handles one after the other. -/
def MicroBlockingSender.drop_clones {T : Type} :
    Nat → MicroBlockingSender T → MicroBlockingSender T
  | 0, s => s
  | k + 1, s => drop_clones k (s.drop_clone)

/-- Sending a list of messages one after the other through
`NonBlockingSender::try_send`, collecting the results in order. -/
def send_all {T : Type} (c : Channel T) : List T → List (SendResult T) × Channel T
  | [] => ([], c)
  | m :: ms =>
    let r := NonBlockingSender.try_send c m
    let rest := send_all r.2 ms
    (r.1 :: rest.1, rest.2)

/-- Calling `NonBlockingReceiver::try_recv` `n` times in a row, collecting
the results in order. -/
def recv_all {T : Type} (c : Channel T) : Nat → List (RecvResult T) × Channel T
  | 0 => ([], c)
  | n + 1 =>
    let r := NonBlockingReceiver.try_recv c
    let rest := recv_all r.2 n
    (r.1 :: rest.1, rest.2)

/-- One externally visible operation on a channel: a send attempt, a
receive attempt, or the destruction of one of the two halves. -/
inductive Op (T : Type) where
  | send : T → Op T
  | recv : Op T
  | dropSender : Op T
  | dropReceiver : Op T
deriving DecidableEq, Repr

/-- The state transition each operation performs on the shared channel
state, discarding the returned result. -/
def step {T : Type} (c : Channel T) : Op T → Channel T
  | Op.send m => (NonBlockingSender.try_send c m).2
  | Op.recv => (NonBlockingReceiver.try_recv c).2
  | Op.dropSender => NonBlockingSender.drop c
  | Op.dropReceiver => NonBlockingReceiver.drop c

/-! ## Helper lemmas -/

/-- Sending any list of messages into an open channel with enough free
space succeeds for every message and appends them to the ring in order. -/
theorem send_all_open {T : Type} (msgs : List T) :
    ∀ (cap : Nat) (r : List T), r.length + msgs.length ≤ cap →
    send_all (Channel.mk cap r false) msgs
      = (List.replicate msgs.length SendResult.Ok, Channel.mk cap (r ++ msgs) false) := by
  induction msgs with
  | nil =>
    intro cap r _
    simp [send_all]
  | cons m ms ih =>
    intro cap r h
    have h' : r.length + ms.length + 1 ≤ cap := by
      rw [List.length_cons] at h
      omega
    have hnotfull : ¬ cap ≤ r.length := by omega
    have hlen2 : (r ++ [m]).length + ms.length ≤ cap := by
      rw [List.length_append, List.length_singleton]
      omega
    have hih := ih cap (r ++ [m]) hlen2
    rw [send_all]
    simp [NonBlockingSender.try_send, hnotfull, hih, List.replicate_succ]

/-- Receiving as many times as the open channel holds messages returns them
all in FIFO order and leaves the ring empty. -/
theorem recv_all_open {T : Type} (msgs : List T) :
    ∀ (cap : Nat), recv_all (Channel.mk cap msgs false) msgs.length
      = (msgs.map RecvResult.Ok, Channel.mk cap [] false) := by
  induction msgs with
  | nil =>
    intro cap
    simp [recv_all]
  | cons m ms ih =>
    intro cap
    rw [List.length_cons, recv_all]
    simp [NonBlockingReceiver.try_recv, ih cap]

/-- A single operation never resets the close flag: when it is `true`
before the step, it is `true` after. -/
theorem step_preserves_closed {T : Type} (c : Channel T) (op : Op T)
    (h : c.is_closed = true) : (step c op).is_closed = true := by
  cases op <;>
    simp [step, NonBlockingSender.try_send, NonBlockingReceiver.try_recv,
      NonBlockingSender.drop, NonBlockingReceiver.drop, h]

/-- No sequence of operations ever resets the close flag. -/
theorem run_preserves_closed {T : Type} (ops : List (Op T)) :
    ∀ c : Channel T, c.is_closed = true → (List.foldl step c ops).is_closed = true := by
  induction ops with
  | nil => intro c h; simpa using h
  | cons op ops ih =>
    intro c h
    rw [List.foldl_cons]
    exact ih _ (step_preserves_closed c op h)

/-- Dropping strictly fewer adapter handles than exist leaves the wrapped
sender untouched and only decrements the share count. -/
theorem drop_clones_partial {T : Type} (k : Nat) :
    ∀ s : MicroBlockingSender T, k < s.count →
    MicroBlockingSender.drop_clones k s = MicroBlockingSender.mk (s.count - k) s.chan := by
  induction k with
  | zero =>
    intro s _
    rfl
  | succ k ih =>
    intro s h
    have h2 : ¬ s.count ≤ 1 := by omega
    rw [MicroBlockingSender.drop_clones, MicroBlockingSender.drop_clone, if_neg h2]
    rw [ih (MicroBlockingSender.mk (s.count - 1) s.chan) (by simp; omega)]
    simp
    omega

/-- Dropping every adapter handle destroys the wrapped sender, which sets
the close flag. -/
theorem drop_clones_all {T : Type} (n : Nat) :
    ∀ s : MicroBlockingSender T, s.count = n → 1 ≤ n →
    (MicroBlockingSender.drop_clones n s).chan.is_closed = true := by
  induction n with
  | zero =>
    intro s _ h1
    omega
  | succ n ih =>
    intro s hc h1
    by_cases hn : n = 0
    · subst hn
      rw [MicroBlockingSender.drop_clones, MicroBlockingSender.drop_clone,
        if_pos (by omega), MicroBlockingSender.drop_clones]
      rfl
    · rw [MicroBlockingSender.drop_clones, MicroBlockingSender.drop_clone,
        if_neg (by omega)]
      exact ih _ (by simp [hc]) (by omega)

/-! ## Claim theorems -/

/-- C1: for every capacity N ≥ 1, on a freshly created channel, sending N
messages in order returns `Ok` for each send, and the (N+1)-th `try_send`
performed before any receive returns `Full` carrying back exactly the
rejected message unchanged. -/
theorem send_fills_to_capacity {T : Type} (N : Nat) (msgs : List T) (extra : T)
    (hN : 1 ≤ N) (hlen : msgs.length = N) :
    (send_all (nonblocking_channel T N) msgs).1 = List.replicate N SendResult.Ok ∧
    NonBlockingSender.try_send (send_all (nonblocking_channel T N) msgs).2 extra
      = (SendResult.Full extra, (send_all (nonblocking_channel T N) msgs).2) := by
  have h := send_all_open msgs N [] (by simpa using Nat.le_of_eq hlen)
  rw [show nonblocking_channel T N = Channel.mk N [] false from rfl, h]
  refine ⟨by rw [hlen], ?_⟩
  simp [NonBlockingSender.try_send, hlen]

/-- Witness for C1 at capacity 2 with messages 10, 20 and rejected message
30. -/
theorem send_fills_to_capacity_witness :
    (send_all (nonblocking_channel Nat 2) [10, 20]).1 = List.replicate 2 SendResult.Ok ∧
    NonBlockingSender.try_send (send_all (nonblocking_channel Nat 2) [10, 20]).2 30
      = (SendResult.Full 30, (send_all (nonblocking_channel Nat 2) [10, 20]).2) :=
  send_fills_to_capacity 2 [10, 20] 30 (by decide) (by decide)

/-- C2: for every capacity N ≥ 1, after N messages are sent successfully,
N consecutive `try_recv` calls return `Ok` with the messages in exactly the
order they were sent (FIFO), and the next `try_recv` after the ring is
drained returns `Empty`. -/
theorem recv_drains_in_order {T : Type} (N : Nat) (msgs : List T)
    (hN : 1 ≤ N) (hlen : msgs.length = N) :
    (recv_all (send_all (nonblocking_channel T N) msgs).2 N).1 = msgs.map RecvResult.Ok ∧
    NonBlockingReceiver.try_recv (recv_all (send_all (nonblocking_channel T N) msgs).2 N).2
      = (RecvResult.Empty, (recv_all (send_all (nonblocking_channel T N) msgs).2 N).2) := by
  subst hlen
  have hsend := send_all_open msgs msgs.length [] (by simp)
  have hrecv := recv_all_open msgs msgs.length
  simp only [show nonblocking_channel T msgs.length = Channel.mk msgs.length [] false from rfl,
    hsend, List.nil_append, hrecv]
  simp [NonBlockingReceiver.try_recv]

/-- Witness for C2 at capacity 2 with messages 10, 20. -/
theorem recv_drains_in_order_witness :
    (recv_all (send_all (nonblocking_channel Nat 2) [10, 20]).2 2).1
      = [10, 20].map RecvResult.Ok ∧
    NonBlockingReceiver.try_recv (recv_all (send_all (nonblocking_channel Nat 2) [10, 20]).2 2).2
      = (RecvResult.Empty, (recv_all (send_all (nonblocking_channel Nat 2) [10, 20]).2 2).2) :=
  recv_drains_in_order 2 [10, 20] (by decide) (by decide)

/-- Counterexample to C3 as stated: on a channel whose receiver was
dropped, `try_send 5` returns `Disconnected` and inserts nothing, but the
message does not remain with the caller — unlike `Full`, the
`Disconnected` result carries no payload, so the attempt consumes and
drops the message instead of handing it back. -/
theorem send_after_receiver_drop_counterexample :
    (NonBlockingSender.try_send (NonBlockingReceiver.drop (nonblocking_channel Nat 4)) 5).1
      = SendResult.Disconnected ∧
    (NonBlockingSender.try_send (NonBlockingReceiver.drop (nonblocking_channel Nat 4)) 5).2.ring
      = [] ∧
    (NonBlockingSender.try_send (NonBlockingReceiver.drop (nonblocking_channel Nat 4)) 5).1.returned_message
      = none := by
  decide

/-- C3 amended: on every channel whose close flag is `true` (in particular
after the receiver was dropped), `try_send` returns `Disconnected` and
leaves the channel state unchanged — the message never reaches the ring —
but the result carries no payload, so the message is not returned to the
caller; it is consumed and dropped by the attempt. -/
theorem send_after_receiver_drop {T : Type} (c : Channel T) (m : T)
    (h : c.is_closed = true) :
    NonBlockingSender.try_send c m = (SendResult.Disconnected, c) ∧
    (NonBlockingSender.try_send c m).1.returned_message = none := by
  constructor
  · simp [NonBlockingSender.try_send, h]
  · simp [NonBlockingSender.try_send, h, SendResult.returned_message]

/-- Witness for the amended C3 on a concrete closed channel. -/
theorem send_after_receiver_drop_witness :
    NonBlockingSender.try_send (NonBlockingReceiver.drop (nonblocking_channel Nat 4)) (5 : Nat)
      = (SendResult.Disconnected, NonBlockingReceiver.drop (nonblocking_channel Nat 4)) ∧
    (NonBlockingSender.try_send (NonBlockingReceiver.drop (nonblocking_channel Nat 4)) (5 : Nat)).1.returned_message
      = none :=
  send_after_receiver_drop (NonBlockingReceiver.drop (nonblocking_channel Nat 4)) 5 rfl

/-- C4: whenever the close flag reads `true` (in particular after the
sender was dropped), `try_recv` returns `Disconnected` and leaves the
channel unchanged: the flag check precedes the pop, so this holds even
when unread messages remain in the ring. -/
theorem recv_disconnected_before_drain {T : Type} (c : Channel T)
    (h : c.is_closed = true) :
    NonBlockingReceiver.try_recv c = (RecvResult.Disconnected, c) := by
  simp [NonBlockingReceiver.try_recv, h]

/-- Witness for C4: the sender of a channel still holding the unread
messages 7 and 9 is dropped; `try_recv` reports `Disconnected` and the
messages stay in the ring. -/
theorem recv_disconnected_before_drain_witness :
    (NonBlockingSender.drop (Channel.mk 2 [7, 9] false)).ring ≠ [] ∧
    NonBlockingReceiver.try_recv (NonBlockingSender.drop (Channel.mk 2 [7, 9] false))
      = (RecvResult.Disconnected, NonBlockingSender.drop (Channel.mk 2 [7, 9] false)) :=
  ⟨by decide, recv_disconnected_before_drain (NonBlockingSender.drop (Channel.mk 2 [7, 9] false)) rfl⟩

/-- C5: the close flag starts `false` on a fresh channel, every write to
it (either handle's destructor) stores `true`, and once it is `true` it
stays `true` under every sequence of operations, with both `try_send` and
`try_recv` reporting `Disconnected` from then on. -/
theorem close_flag_monotone {T : Type} (capacity : Nat) (d c : Channel T) (m : T)
    (ops : List (Op T)) (h : c.is_closed = true) :
    (nonblocking_channel T capacity).is_closed = false ∧
    (NonBlockingSender.drop d).is_closed = true ∧
    (NonBlockingReceiver.drop d).is_closed = true ∧
    (List.foldl step c ops).is_closed = true ∧
    (NonBlockingSender.try_send (List.foldl step c ops) m).1 = SendResult.Disconnected ∧
    (NonBlockingReceiver.try_recv (List.foldl step c ops)).1 = RecvResult.Disconnected := by
  have hrun := run_preserves_closed ops c h
  refine ⟨rfl, rfl, rfl, hrun, ?_, ?_⟩
  · simp [NonBlockingSender.try_send, hrun]
  · simp [NonBlockingReceiver.try_recv, hrun]

/-- Witness for C5 at a concrete closed channel and operation sequence. -/
theorem close_flag_monotone_witness :
    (nonblocking_channel Nat 3).is_closed = false ∧
    (NonBlockingSender.drop (Channel.mk 1 [] false : Channel Nat)).is_closed = true ∧
    (NonBlockingReceiver.drop (Channel.mk 1 [] false : Channel Nat)).is_closed = true ∧
    (List.foldl step (Channel.mk 1 [] true : Channel Nat) [Op.send 1, Op.recv]).is_closed = true ∧
    (NonBlockingSender.try_send (List.foldl step (Channel.mk 1 [] true : Channel Nat) [Op.send 1, Op.recv]) 0).1
      = SendResult.Disconnected ∧
    (NonBlockingReceiver.try_recv (List.foldl step (Channel.mk 1 [] true : Channel Nat) [Op.send 1, Op.recv])).1
      = RecvResult.Disconnected :=
  close_flag_monotone 3 (Channel.mk 1 [] false) (Channel.mk 1 [] true) 0 [Op.send 1, Op.recv] rfl

/-- C6: the adapter's `try_send` returns the identical result that the
wrapped sender's `try_send` returns on the same message in the same
channel state, performs the same state change on the wrapped channel, and
touches nothing else (the share count is unchanged). -/
theorem adapter_send_delegates {T : Type} (s : MicroBlockingSender T) (m : T) :
    (MicroBlockingSender.try_send s m).1 = (NonBlockingSender.try_send s.chan m).1 ∧
    (MicroBlockingSender.try_send s m).2.chan = (NonBlockingSender.try_send s.chan m).2 ∧
    (MicroBlockingSender.try_send s m).2.count = s.count :=
  ⟨rfl, rfl, rfl⟩

/-- Counterexample to C7 as stated: `SendResult.Full 0` is not a
disconnection, yet `is_ok` returns `false` on it — the source's
`SendResult::is_ok` matches only `Ok`, not `Ok` and `Full`. -/
theorem send_is_ok_counterexample :
    (SendResult.Full (0 : Nat)).is_disconnected = false ∧
    (SendResult.Full (0 : Nat)).is_ok = false := by
  decide

/-- C7 amended: for both result types `is_disconnected` is `true` exactly
on `Disconnected`; `RecvResult.is_ok` is `true` exactly on `Ok` and
`Empty` (not a disconnection), but `SendResult.is_ok` is `true` exactly on
`Ok` — it is `false` on `Full`. -/
theorem result_predicates {T : Type} (sr : SendResult T) (rr : RecvResult T) :
    (sr.is_disconnected = true ↔ sr = SendResult.Disconnected) ∧
    (rr.is_disconnected = true ↔ rr = RecvResult.Disconnected) ∧
    (sr.is_ok = true ↔ sr = SendResult.Ok) ∧
    (rr.is_ok = true ↔ rr ≠ RecvResult.Disconnected) := by
  cases sr <;> cases rr <;>
    simp [SendResult.is_disconnected, SendResult.is_ok,
      RecvResult.is_disconnected, RecvResult.is_ok]

/-- Counterexample to C8 as stated: `SendResult.Full 3` is not a
disconnection, yet `unwrap` panics on it (modelled as `none`) instead of
returning normally. -/
theorem send_unwrap_counterexample :
    (SendResult.Full (3 : Nat)).is_disconnected = false ∧
    (SendResult.Full (3 : Nat)).unwrap = none := by
  decide

/-- C8 amended: `RecvResult.unwrap` raises a fatal error only on
`Disconnected`, returning the message on `Ok` and nothing on `Empty`;
`SendResult.unwrap`, however, raises a fatal error on `Full` as well as on
`Disconnected`, returning normally only on `Ok`. -/
theorem unwrap_fatal_cases {T : Type} (sr : SendResult T) (rr : RecvResult T) :
    (sr.unwrap = none ↔ sr = SendResult.Disconnected ∨ ∃ m, sr = SendResult.Full m) ∧
    (rr.unwrap = none ↔ rr = RecvResult.Disconnected) ∧
    ((SendResult.Ok : SendResult T).unwrap = some ()) ∧
    (∀ m : T, (RecvResult.Ok m).unwrap = some (some m)) ∧
    ((RecvResult.Empty : RecvResult T).unwrap = some none) := by
  cases sr <;> cases rr <;>
    simp [SendResult.unwrap, RecvResult.unwrap]

/-- C9: cloning an adapter handle increments the share count and touches
nothing else; dropping any proper subset of the handles leaves the wrapped
sender — in particular the close flag — unchanged; the wrapped sender is
destroyed, setting the close flag, exactly when the last remaining handle
is dropped. -/
theorem adapter_last_clone_closes {T : Type} (s : MicroBlockingSender T) (k : Nat)
    (hk : k < s.count) :
    (MicroBlockingSender.clone s).count = s.count + 1 ∧
    (MicroBlockingSender.clone s).chan = s.chan ∧
    (MicroBlockingSender.drop_clones k s).chan = s.chan ∧
    (MicroBlockingSender.drop_clones k s).count = s.count - k ∧
    (MicroBlockingSender.drop_clones s.count s).chan.is_closed = true := by
  have hpart := drop_clones_partial k s hk
  refine ⟨rfl, rfl, by rw [hpart], by rw [hpart], ?_⟩
  exact drop_clones_all s.count s rfl (by omega)

/-- Witness for C9: three adapter handles over an open channel; dropping
two leaves the flag `false`, dropping all three sets it. -/
theorem adapter_last_clone_closes_witness :
    (MicroBlockingSender.clone (MicroBlockingSender.mk 3 (Channel.mk 2 [] false) : MicroBlockingSender Nat)).count = 3 + 1 ∧
    (MicroBlockingSender.clone (MicroBlockingSender.mk 3 (Channel.mk 2 [] false) : MicroBlockingSender Nat)).chan
      = Channel.mk 2 [] false ∧
    (MicroBlockingSender.drop_clones 2 (MicroBlockingSender.mk 3 (Channel.mk 2 [] false) : MicroBlockingSender Nat)).chan
      = Channel.mk 2 [] false ∧
    (MicroBlockingSender.drop_clones 2 (MicroBlockingSender.mk 3 (Channel.mk 2 [] false) : MicroBlockingSender Nat)).count
      = 3 - 2 ∧
    (MicroBlockingSender.drop_clones 3 (MicroBlockingSender.mk 3 (Channel.mk 2 [] false) : MicroBlockingSender Nat)).chan.is_closed
      = true :=
  adapter_last_clone_closes (MicroBlockingSender.mk 3 (Channel.mk 2 [] false) : MicroBlockingSender Nat) 2 (by decide)

/-- C10: neither `try_send` nor `try_recv` ever writes the close flag —
after either call it equals its value before the call — while destruction
of a sender or receiver handle sets it to `true`. -/
theorem ops_preserve_close_flag {T : Type} (c : Channel T) (m : T) :
    (NonBlockingSender.try_send c m).2.is_closed = c.is_closed ∧
    (NonBlockingReceiver.try_recv c).2.is_closed = c.is_closed ∧
    (NonBlockingSender.drop c).is_closed = true ∧
    (NonBlockingReceiver.drop c).is_closed = true := by
  refine ⟨?_, ?_, rfl, rfl⟩
  · unfold NonBlockingSender.try_send
    split
    · rfl
    · split <;> rfl
  · unfold NonBlockingReceiver.try_recv
    split
    · rfl
    · split <;> rfl

end NonblockingChannel
